import Mathlib

/- Shallow embedding of the alert engine of
   src/wifi-heatmap-dashboard/alerts.py, together with the per-row
   signal-to-dBm conversion of src/wifi-heatmap-dashboard/analyzer.py
   (load_all_data, line 49).

   Modelling conventions:
   - The code stores timestamps as strings in the format
     YYYY-MM-DD HH:MM:SS; lexicographic order on that format coincides
     with chronological order, so timestamps are modelled as integers
     counting seconds.
   - Python floats are modelled as rationals.
   - SQL AVG(signal) over an empty row set yields NULL and
     fetchone()[0] is then None; this is modelled as Option.none.
   - The Python guard  if recent_avg and previous_avg:  is a truthiness
     test: it rejects both None and the float 0.0.  The embedding keeps
     that behaviour explicitly as a test against none and against 0.
   - Python round(x, 1) rounds half to even; pyRound1 mirrors that. -/

structure Measurement where
  timestamp : ℤ
  room : String
  ssid : String
  signal : ℚ
  deriving DecidableEq

abbrev Store := List Measurement

/-- Rule-specific alert payload, mirroring the data dict each branch of
alerts.py builds.  Numeric entries are the rounded values stored there. -/
inductive AlertData where
  | degradation (room ssid : String)
      (previous_signal current_signal degradation : ℚ)
  | poorSig (room ssid : String) (signal : ℚ)
  | disappeared (room ssid : String) (minutes_missing : ℤ)
  deriving DecidableEq

/-- One alert record as built by AlertSystem.add_alert: timestamp of
emission, type string, message, severity and the data payload. -/
structure Alert where
  timestamp : ℤ
  type : String
  message : String
  severity : String
  data : AlertData
  deriving DecidableEq

/-- Threshold constants at the top of alerts.py. -/
def SIGNAL_DEGRADATION_THRESHOLD : ℚ := -10

def POOR_SIGNAL_THRESHOLD : ℚ := -80

def NETWORK_DISAPPEARANCE_MINUTES : ℤ := 30

/-- Per-row conversion of analyzer.py line 49:
x / 2.0 - 100.0 if x > 0 else x. -/
def to_signal_dbm (x : ℚ) : ℚ := if 0 < x then x / 2 - 100 else x

/-- Arithmetic mean of a list of rationals (sum over length). -/
def listMean (l : List ℚ) : ℚ := l.sum / l.length

/-- SQL AVG(signal): NULL (none) on an empty row set, otherwise the
unweighted arithmetic mean of the signal column. -/
def avgSignal (rows : List Measurement) : Option ℚ :=
  if rows = [] then none else some (listMean (rows.map Measurement.signal))

/-- Python round-half-to-even of a rational to an integer. -/
def pyRoundHalfEven (x : ℚ) : ℤ :=
  let f := ⌊x⌋
  if x - f < 1 / 2 then f
  else if 1 / 2 < x - f then f + 1
  else if f % 2 = 0 then f else f + 1

/-- Python round(q, 1). -/
def pyRound1 (q : ℚ) : ℚ := (pyRoundHalfEven (10 * q) : ℚ) / 10

/-- Rows matched by the first query of check_signal_degradation:
room and ssid equal, timestamp at or after now minus one hour (the query
has no upper bound on timestamp). -/
def degradationRecentRows (store : Store) (room ssid : String) (now : ℤ) :
    List Measurement :=
  store.filter fun m =>
    decide (m.room = room ∧ m.ssid = ssid ∧ now - 3600 ≤ m.timestamp)

/-- Rows matched by the second query of check_signal_degradation:
room and ssid equal, timestamp in the half-open window
[now - 2h, now - 1h). -/
def degradationPreviousRows (store : Store) (room ssid : String) (now : ℤ) :
    List Measurement :=
  store.filter fun m =>
    decide (m.room = room ∧ m.ssid = ssid ∧
      now - 7200 ≤ m.timestamp ∧ m.timestamp < now - 3600)

/-- AlertSystem.check_signal_degradation (alerts.py lines 49-93).
The truthiness guard  if recent_avg and previous_avg:  is modelled as:
both averages are some value and that value is nonzero. -/
def check_signal_degradation (store : Store) (room ssid : String)
    (now : ℤ) : Option Alert :=
  let recent_avg := avgSignal (degradationRecentRows store room ssid now)
  let previous_avg := avgSignal (degradationPreviousRows store room ssid now)
  match recent_avg, previous_avg with
  | some ra, some pa =>
    if ra ≠ 0 ∧ pa ≠ 0 then
      let recent_dbm := ra / 2 - 100
      let previous_dbm := pa / 2 - 100
      let degradation := recent_dbm - previous_dbm
      if degradation < SIGNAL_DEGRADATION_THRESHOLD then
        some { timestamp := now
               type := "signal_degradation"
               message := "Signal degradation detected for " ++ ssid ++
                 " in " ++ room
               severity := "warning"
               data := .degradation room ssid (pyRound1 previous_dbm)
                 (pyRound1 recent_dbm) (pyRound1 degradation) }
      else none
    else none
  | _, _ => none

/-- The (room, ssid) key of a measurement. -/
def measKey (m : Measurement) : String × String := (m.room, m.ssid)

/-- Rows of the last hour, as filtered by check_poor_signal
(timestamp at or after now minus one hour, no upper bound). -/
def lastHourRows (store : Store) (now : ℤ) : List Measurement :=
  store.filter fun m => decide (now - 3600 ≤ m.timestamp)

/-- The distinct (room, ssid) keys occurring in a row set;
models GROUP BY room, ssid. -/
def groupPairs (rows : List Measurement) : List (String × String) :=
  (rows.map measKey).dedup

/-- The rows of one GROUP BY group. -/
def groupRows (rows : List Measurement) (p : String × String) :
    List Measurement :=
  rows.filter fun m => decide (measKey m = p)

/-- AVG(signal) of one GROUP BY group (groups coming from groupPairs are
nonempty, so this is the SQL average of the group). -/
def groupAvg (rows : List Measurement) (p : String × String) : ℚ :=
  listMean ((groupRows rows p).map Measurement.signal)

/-- The alert built by the loop body of check_poor_signal. -/
def poorAlert (p : String × String) (signal_dbm : ℚ) (now : ℤ) : Alert :=
  { timestamp := now
    type := "poor_signal"
    message := "Poor signal detected for " ++ p.2 ++ " in " ++ p.1
    severity := "info"
    data := .poorSig p.1 p.2 (pyRound1 signal_dbm) }

/-- AlertSystem.check_poor_signal (alerts.py lines 95-129): group the
last hour of rows by (room, ssid), keep groups with AVG(signal) > 0
(the HAVING clause), convert the group average once to dBm and alert
when it is strictly below the poor-signal threshold. -/
def check_poor_signal (store : Store) (now : ℤ) : List Alert :=
  let rows := lastHourRows store now
  (groupPairs rows).filterMap fun p =>
    let avg := groupAvg rows p
    if 0 < avg then
      let signal_dbm := avg / 2 - 100
      if signal_dbm < POOR_SIGNAL_THRESHOLD then
        some (poorAlert p signal_dbm now)
      else none
    else none

/-- Distinct (room, ssid) pairs with a sample in [now - 2h, now - 30m),
the outer query of check_network_disappearance. -/
def oldWindowPairs (store : Store) (now : ℤ) : List (String × String) :=
  ((store.filter fun m =>
      decide (now - 7200 ≤ m.timestamp ∧ m.timestamp < now - 1800)).map
    measKey).dedup

/-- Distinct (room, ssid) pairs with a sample at or after now - 30m
(no upper bound), the subquery of check_network_disappearance. -/
def recentSeenPairs (store : Store) (now : ℤ) : List (String × String) :=
  ((store.filter fun m => decide (now - 1800 ≤ m.timestamp)).map
    measKey).dedup

/-- The alert built by the loop body of check_network_disappearance. -/
def disappearAlert (p : String × String) (now : ℤ) : Alert :=
  { timestamp := now
    type := "network_disappeared"
    message := "Network " ++ p.2 ++ " not seen in " ++ p.1 ++ " for " ++
      toString NETWORK_DISAPPEARANCE_MINUTES ++ " minutes"
    severity := "warning"
    data := .disappeared p.1 p.2 NETWORK_DISAPPEARANCE_MINUTES }

/-- AlertSystem.check_network_disappearance (alerts.py lines 131-167):
one warning alert per distinct pair seen in the old window but not in
the recent set. -/
def check_network_disappearance (store : Store) (now : ℤ) : List Alert :=
  ((oldWindowPairs store now).filter fun p =>
      decide (p ∉ recentSeenPairs store now)).map
    fun p => disappearAlert p now

/-- AlertSystem.check_all (alerts.py lines 169-179): poor-signal alerts
followed by disappearance alerts. -/
def check_all (store : Store) (now : ℤ) : List Alert :=
  check_poor_signal store now ++ check_network_disappearance store now

/-- One evaluation pass over a given ledger: the rules compute their
alerts from the sample store and the current time only, and add_alert
appends each emitted alert to the ledger.  Returns the new ledger and
the newly emitted alerts (the return value of check_all). -/
def run_alert_pass (ledger : List Alert) (store : Store) (now : ℤ) :
    List Alert × List Alert :=
  (ledger ++ check_all store now, check_all store now)

/-- Each check opens its own sqlite connection, which may fail
(for example with a StoreUnavailable condition); a failing connection is
modelled as an error value in place of the readable store.  A raised
exception propagates out of the check. -/
def check_poor_signalE (db : Except String Store) (now : ℤ) :
    Except String (List Alert) :=
  db.map fun s => check_poor_signal s now

/-- Exception-aware form of check_network_disappearance; see
check_poor_signalE. -/
def check_network_disappearanceE (db : Except String Store) (now : ℤ) :
    Except String (List Alert) :=
  db.map fun s => check_network_disappearance s now

/-- AlertSystem.check_all with Python exception semantics: the two rule
evaluations run in order with no try/except around either, so an
exception raised by one propagates and aborts the pass. -/
def check_allE (dbPoor dbDis : Except String Store) (now : ℤ) :
    Except String (List Alert) := do
  let alerts1 ← check_poor_signalE dbPoor now
  let alerts2 ← check_network_disappearanceE dbDis now
  pure (alerts1 ++ alerts2)

/-- AlertSystem.add_alert (alerts.py lines 36-47): build the alert
record with the current time as its timestamp, append it to the ledger,
and return it. -/
def add_alert (ledger : List Alert) (now : ℤ) (alert_type message : String)
    (severity : String) (d : AlertData) : List Alert × Alert :=
  let a : Alert :=
    { timestamp := now
      type := alert_type
      message := message
      severity := severity
      data := d }
  (ledger ++ [a], a)

/-- AlertSystem.get_recent_alerts (alerts.py lines 181-184): keep the
alerts whose timestamp is at or after now minus the given number of
hours, in ledger order. -/
def get_recent_alerts (ledger : List Alert) (now : ℤ) (hours : ℤ) :
    List Alert :=
  ledger.filter fun a => decide (now - hours * 3600 ≤ a.timestamp)

/-- AlertSystem.clear_old_alerts (alerts.py lines 186-190): keep the
alerts whose timestamp is at or after now minus the given number of
days. -/
def clear_old_alerts (ledger : List Alert) (now : ℤ) (days : ℤ) :
    List Alert :=
  ledger.filter fun a => decide (now - days * 86400 ≤ a.timestamp)

/-- The (room, ssid) pair an alert refers to, read from its payload. -/
def alertKey (a : Alert) : String × String :=
  match a.data with
  | .degradation r s _ _ _ => (r, s)
  | .poorSig r s _ => (r, s)
  | .disappeared r s _ => (r, s)

/-- The minutes_missing entry of a disappearance alert payload. -/
def missingMinutes (a : Alert) : Option ℤ :=
  match a.data with
  | .disappeared _ _ mm => some mm
  | _ => none

/-- Spec-side aggregation strategy (spec sections 3 and 4.1): convert
every raw value per row with to_signal_dbm, then take the unweighted
arithmetic mean. -/
def perRowMeanDbm (l : List ℚ) : ℚ := listMean (l.map to_signal_dbm)

/-- Implemented aggregation strategy of alerts.py (lines 75-76 and 113):
take the unweighted arithmetic mean of the raw values and convert the
mean once. -/
def convertOnceMeanDbm (l : List ℚ) : ℚ := listMean l / 2 - 100

/-- The signal column of the rows matching a (room, ssid) pair inside a
half-open window [lo, hi). -/
def windowSignals (store : Store) (room ssid : String) (lo hi : ℤ) :
    List ℚ :=
  (store.filter fun m =>
      decide (m.room = room ∧ m.ssid = ssid ∧
        lo ≤ m.timestamp ∧ m.timestamp < hi)).map
    Measurement.signal

lemma sum_map_half_sub (l : List ℚ) :
    (l.map fun x => x / 2 - 100).sum = l.sum / 2 - 100 * l.length := by
  induction l with
  | nil => simp
  | cons x xs ih =>
      simp only [List.map_cons, List.sum_cons, List.length_cons, ih]
      push_cast
      ring

/-- Claim C7: within one fixed store state and evaluation time, a second
check_all pass over the ledger produced by the first emits exactly the
same alerts, and the ledger simply accumulates both emissions; the rules
never read the ledger, so there is no built-in suppression. -/
theorem run_alert_pass_rerun_same (ledger : List Alert) (store : Store)
    (now : ℤ) :
    (run_alert_pass (run_alert_pass ledger store now).1 store now).2
      = (run_alert_pass ledger store now).2
    ∧ (run_alert_pass (run_alert_pass ledger store now).1 store now).1
      = ledger ++ check_all store now ++ check_all store now := by
  exact ⟨rfl, rfl⟩

/-- Claim C6 counterexample: with a store in which the disappearance
rule alone would emit one alert, a failure raised by the poor-signal
rule makes check_all abort with the bare error; the successful rule's
alerts are not returned together with a reported error. -/
theorem check_all_abort_cex :
    check_network_disappearanceE
        (Except.ok [⟨95000, "A", "N", 50⟩]) 100000
      = Except.ok [disappearAlert ("A", "N") 100000]
    ∧ check_allE (Except.error "database is locked")
        (Except.ok [⟨95000, "A", "N", 50⟩]) 100000
      = Except.error "database is locked" := by
  exact ⟨rfl, rfl⟩

/-- Claim C6 amended: check_all runs the two rules in order with no
per-rule wrapping, so a failure in the poor-signal rule prevents the
disappearance rule from contributing anything and the pass returns only
the error; likewise a failure in the disappearance rule discards the
poor-signal alerts from the returned value. -/
theorem check_allE_error_propagation :
    (∀ (e : String) (dbDis : Except String Store) (now : ℤ),
        check_allE (Except.error e) dbDis now = Except.error e)
    ∧ ∀ (store : Store) (e : String) (now : ℤ),
        check_allE (Except.ok store) (Except.error e) now
          = Except.error e := by
  exact ⟨fun e dbDis now => rfl, fun store e now => rfl⟩

/-- Claim C8: an alert appended by add_alert is returned by
get_recent_alerts at a later query time exactly when the queried
duration (hours, in seconds) is at least the age of the alert, and the
query preserves emission order (its result is a sublist of the
ledger). -/
theorem add_alert_roundtrip (ledger : List Alert) (t0 : ℤ)
    (ty msg sev : String) (d : AlertData) (now hours : ℤ) :
    ((add_alert ledger t0 ty msg sev d).2 ∈
        get_recent_alerts (add_alert ledger t0 ty msg sev d).1 now hours
      ↔ now - t0 ≤ hours * 3600)
    ∧ (get_recent_alerts (add_alert ledger t0 ty msg sev d).1 now
        hours).Sublist (add_alert ledger t0 ty msg sev d).1 := by
  constructor
  · simp [add_alert, get_recent_alerts, List.mem_filter]
    omega
  · exact List.filter_sublist _

/-- Claim C9: pruning at seven days and then querying the last 365 days
(8760 hours) returns exactly the alerts of the original ledger that are
at most seven days old, with all fields and the relative order
unchanged, and no returned alert is older than seven days. -/
theorem prune_then_recent (ledger : List Alert) (now : ℤ) :
    get_recent_alerts (clear_old_alerts ledger now 7) now 8760
      = ledger.filter (fun a => decide (now - 7 * 86400 ≤ a.timestamp))
    ∧ ∀ a ∈ get_recent_alerts (clear_old_alerts ledger now 7) now 8760,
        ¬ a.timestamp < now - 7 * 86400 := by
  have h : get_recent_alerts (clear_old_alerts ledger now 7) now 8760
      = ledger.filter (fun a => decide (now - 7 * 86400 ≤ a.timestamp)) := by
    unfold get_recent_alerts clear_old_alerts
    rw [List.filter_filter]
    apply List.filter_congr
    intro a _
    simp
    omega
  refine ⟨h, ?_⟩
  intro a ha
  rw [h] at ha
  simp [List.mem_filter] at ha
  omega

/-- Claim C3 failing input: both one-hour windows hold exactly one
sample, the dBm delta is well below the threshold, yet the code emits
nothing, because the truthiness guard treats the recent average 0.0 as
missing data. -/
theorem degradation_zero_average_no_alert :
    avgSignal (degradationRecentRows
        [⟨99400, "A", "N", 0⟩, ⟨94600, "A", "N", 60⟩] "A" "N" 100000)
      = some 0
    ∧ avgSignal (degradationPreviousRows
        [⟨99400, "A", "N", 0⟩, ⟨94600, "A", "N", 60⟩] "A" "N" 100000)
      = some 60
    ∧ ((0 : ℚ) / 2 - 100) - ((60 : ℚ) / 2 - 100)
        < SIGNAL_DEGRADATION_THRESHOLD
    ∧ check_signal_degradation
        [⟨99400, "A", "N", 0⟩, ⟨94600, "A", "N", 60⟩] "A" "N" 100000
      = none := by
  refine ⟨?_, ?_, ?_, ?_⟩ <;>
    norm_num [check_signal_degradation, avgSignal, degradationRecentRows,
      degradationPreviousRows, listMean, List.filter,
      SIGNAL_DEGRADATION_THRESHOLD]

/-- Claim C4 failing input: both windows hold one sample each, so both
averages are defined, and the delta is strictly below -10, yet the code
emits nothing: the previous average 0.0 fails the truthiness guard. -/
theorem degradation_zero_previous_no_alert :
    avgSignal (degradationRecentRows
        [⟨99400, "A", "N", -30⟩, ⟨94600, "A", "N", 0⟩] "A" "N" 100000)
      = some (-30)
    ∧ avgSignal (degradationPreviousRows
        [⟨99400, "A", "N", -30⟩, ⟨94600, "A", "N", 0⟩] "A" "N" 100000)
      = some 0
    ∧ ((-30 : ℚ) / 2 - 100) - ((0 : ℚ) / 2 - 100)
        < SIGNAL_DEGRADATION_THRESHOLD
    ∧ check_signal_degradation
        [⟨99400, "A", "N", -30⟩, ⟨94600, "A", "N", 0⟩] "A" "N" 100000
      = none := by
  refine ⟨?_, ?_, ?_, ?_⟩ <;>
    norm_num [check_signal_degradation, avgSignal, degradationRecentRows,
      degradationPreviousRows, listMean, List.filter,
      SIGNAL_DEGRADATION_THRESHOLD]

/-- Claim C1 counterexample: for a matching row whose stored signal is
-70 (a value at or below zero, passed through by the per-row rule), the
per-row-then-mean strategy and the implemented mean-then-convert-once
strategy disagree: -70 versus -135. -/
theorem per_row_vs_convert_once_cex :
    perRowMeanDbm (windowSignals [⟨95000, "Kitchen", "HomeNet", -70⟩]
        "Kitchen" "HomeNet" 90000 100000)
      ≠ convertOnceMeanDbm (windowSignals [⟨95000, "Kitchen", "HomeNet", -70⟩]
        "Kitchen" "HomeNet" 90000 100000) := by
  norm_num [perRowMeanDbm, convertOnceMeanDbm, windowSignals, listMean,
    to_signal_dbm, List.filter]

/-- Claim C1 amended: whenever every matching raw value is strictly
positive, converting each row first and then averaging agrees with the
implemented strategy of averaging the raw values and converting the
mean once. -/
theorem per_row_conversion_agrees (store : Store) (room ssid : String)
    (lo hi : ℤ)
    (hne : windowSignals store room ssid lo hi ≠ [])
    (hpos : ∀ x ∈ windowSignals store room ssid lo hi, 0 < x) :
    perRowMeanDbm (windowSignals store room ssid lo hi)
      = convertOnceMeanDbm (windowSignals store room ssid lo hi) := by
  set l := windowSignals store room ssid lo hi with hl
  have hmap : l.map to_signal_dbm = l.map fun x => x / 2 - 100 :=
    List.map_congr_left fun x hx => by simp [to_signal_dbm, hpos x hx]
  have h0 : l.length ≠ 0 := by simpa [List.length_eq_zero] using hne
  have hn : (l.length : ℚ) ≠ 0 := by exact_mod_cast h0
  simp only [perRowMeanDbm, convertOnceMeanDbm, listMean]
  rw [hmap, sum_map_half_sub, List.length_map]
  field_simp
  ring

/-- Claim C1 witness: a concrete window of two strictly positive raw
values on which the amended equivalence is discharged. -/
theorem per_row_conversion_agrees_witness :
    windowSignals [⟨95000, "K", "H", 60⟩, ⟨95100, "K", "H", 20⟩]
        "K" "H" 90000 100000 ≠ []
    ∧ (∀ x ∈ windowSignals [⟨95000, "K", "H", 60⟩, ⟨95100, "K", "H", 20⟩]
        "K" "H" 90000 100000, 0 < x)
    ∧ perRowMeanDbm (windowSignals
        [⟨95000, "K", "H", 60⟩, ⟨95100, "K", "H", 20⟩]
        "K" "H" 90000 100000)
      = convertOnceMeanDbm (windowSignals
        [⟨95000, "K", "H", 60⟩, ⟨95100, "K", "H", 20⟩]
        "K" "H" 90000 100000) :=
  ⟨by simp [windowSignals, List.filter],
    by norm_num [windowSignals, List.filter],
    per_row_conversion_agrees _ "K" "H" 90000 100000
      (by simp [windowSignals, List.filter])
      (by norm_num [windowSignals, List.filter])⟩

lemma count_eq_one_of_nodup_mem {α} [BEq α] [LawfulBEq α] {l : List α}
    {a : α} (hnd : l.Nodup) (h : a ∈ l) : l.count a = 1 := by
  induction l with
  | nil => cases h
  | cons b t ih =>
      rw [List.nodup_cons] at hnd
      rcases List.mem_cons.mp h with rfl | ht
      · rw [List.count_cons_self, List.count_eq_zero.mpr hnd.1]
      · have hne : a ≠ b := fun e => hnd.1 (by rw [← e]; exact ht)
        rw [List.count_cons_of_ne hne t]
        exact ih hnd.2 ht

lemma alertKey_poorAlert (p : String × String) (dbm : ℚ) (now : ℤ) :
    alertKey (poorAlert p dbm now) = p := by
  cases p
  rfl

lemma alertKey_disappearAlert (p : String × String) (now : ℤ) :
    alertKey (disappearAlert p now) = p := by
  cases p
  rfl

lemma mem_check_poor_signal (store : Store) (now : ℤ) (a : Alert) :
    a ∈ check_poor_signal store now ↔
      ∃ p ∈ groupPairs (lastHourRows store now),
        0 < groupAvg (lastHourRows store now) p ∧
        groupAvg (lastHourRows store now) p / 2 - 100
          < POOR_SIGNAL_THRESHOLD ∧
        a = poorAlert p
          (groupAvg (lastHourRows store now) p / 2 - 100) now := by
  simp only [check_poor_signal]
  rw [List.mem_filterMap]
  constructor
  · rintro ⟨p, hp, hf⟩
    refine ⟨p, hp, ?_⟩
    by_cases h1 : 0 < groupAvg (lastHourRows store now) p
    · by_cases h2 : groupAvg (lastHourRows store now) p / 2 - 100
          < POOR_SIGNAL_THRESHOLD
      · simp only [h1, h2, if_true] at hf
        exact ⟨h1, h2, (Option.some.inj hf).symm⟩
      · simp [h1, h2] at hf
    · simp [h1] at hf
  · rintro ⟨p, hp, h1, h2, rfl⟩
    exact ⟨p, hp, by simp [h1, h2]⟩

lemma mem_oldWindowPairs (store : Store) (now : ℤ) (p : String × String) :
    p ∈ oldWindowPairs store now ↔
      ∃ m ∈ store, measKey m = p ∧ now - 7200 ≤ m.timestamp ∧
        m.timestamp < now - 1800 := by
  unfold oldWindowPairs
  rw [List.mem_dedup, List.mem_map]
  constructor
  · rintro ⟨m, hm, hk⟩
    rw [List.mem_filter] at hm
    exact ⟨m, hm.1, hk, by simpa using hm.2⟩
  · rintro ⟨m, hm, hk, h1, h2⟩
    exact ⟨m, List.mem_filter.mpr ⟨hm, by simp [h1, h2]⟩, hk⟩

lemma mem_recentSeenPairs (store : Store) (now : ℤ) (p : String × String) :
    p ∈ recentSeenPairs store now ↔
      ∃ m ∈ store, measKey m = p ∧ now - 1800 ≤ m.timestamp := by
  unfold recentSeenPairs
  rw [List.mem_dedup, List.mem_map]
  constructor
  · rintro ⟨m, hm, hk⟩
    rw [List.mem_filter] at hm
    exact ⟨m, hm.1, hk, by simpa using hm.2⟩
  · rintro ⟨m, hm, hk, h1⟩
    exact ⟨m, List.mem_filter.mpr ⟨hm, by simp [h1]⟩, hk⟩

/-- Claim C2 counterexample: a group whose single last-hour sample is
the already-dBm value -90 has a per-rule mean dBm of -90, strictly below
-80, yet check_poor_signal emits no alert at all: the HAVING clause
discards every group whose raw average is not strictly positive. -/
theorem poor_signal_missed_dbm_group :
    perRowMeanDbm ((groupRows
        (lastHourRows [⟨99000, "A", "N", -90⟩] 100000)
        ("A", "N")).map Measurement.signal) < -80
    ∧ ("A", "N") ∈ groupPairs (lastHourRows [⟨99000, "A", "N", -90⟩] 100000)
    ∧ check_poor_signal [⟨99000, "A", "N", -90⟩] 100000 = [] := by
  refine ⟨?_, by decide, ?_⟩
  · norm_num [perRowMeanDbm, groupRows, lastHourRows, measKey, listMean,
      to_signal_dbm, List.filter]
  · norm_num [check_poor_signal, groupPairs, groupAvg, groupRows,
      lastHourRows, measKey, listMean, List.filter, List.filterMap,
      POOR_SIGNAL_THRESHOLD]

/-- Claim C2 amended: for every (room, ssid) group with at least one
sample in the last hour, check_poor_signal emits an info alert for that
group if and only if the group's raw average is strictly positive and
the converted mean, raw average over two minus one hundred, is strictly
below -80; in particular a group averaging exactly -80 dBm does not
alert, and a group whose raw average is not positive never alerts. -/
theorem check_poor_signal_alert_iff (store : Store) (now : ℤ)
    (p : String × String)
    (hp : p ∈ groupPairs (lastHourRows store now)) :
    (p ∈ (check_poor_signal store now).map alertKey ↔
      0 < groupAvg (lastHourRows store now) p ∧
        groupAvg (lastHourRows store now) p / 2 - 100 < -80)
    ∧ ∀ a ∈ check_poor_signal store now, a.severity = "info" := by
  constructor
  · rw [List.mem_map]
    constructor
    · rintro ⟨a, ha, rfl⟩
      rw [mem_check_poor_signal] at ha
      obtain ⟨q, hq, h1, h2, rfl⟩ := ha
      rw [alertKey_poorAlert]
      exact ⟨h1, h2⟩
    · rintro ⟨h1, h2⟩
      exact ⟨poorAlert p (groupAvg (lastHourRows store now) p / 2 - 100) now,
        (mem_check_poor_signal store now _).mpr ⟨p, hp, h1, h2, rfl⟩,
        alertKey_poorAlert p _ now⟩
  · intro a ha
    rw [mem_check_poor_signal] at ha
    obtain ⟨q, hq, h1, h2, rfl⟩ := ha
    rfl

/-- Claim C2 witness: a concrete one-sample group of raw value 20
(dBm -90), discharging the nonempty-group hypothesis. -/
theorem check_poor_signal_alert_iff_witness :
    (("A", "N") ∈ groupPairs (lastHourRows [⟨99000, "A", "N", 20⟩] 100000))
    ∧ ((("A", "N") ∈
        (check_poor_signal [⟨99000, "A", "N", 20⟩] 100000).map alertKey ↔
      0 < groupAvg (lastHourRows [⟨99000, "A", "N", 20⟩] 100000) ("A", "N") ∧
        groupAvg (lastHourRows [⟨99000, "A", "N", 20⟩] 100000) ("A", "N")
          / 2 - 100 < -80)
    ∧ ∀ a ∈ check_poor_signal [⟨99000, "A", "N", 20⟩] 100000,
        a.severity = "info") :=
  ⟨by decide, check_poor_signal_alert_iff _ _ _ (by decide)⟩

/-- Claim C10: a group whose last-hour samples average to a raw value at
or below zero is never the subject of a poor-signal alert, whatever dBm
value that average would correspond to. -/
theorem check_poor_signal_skips_nonpositive (store : Store) (now : ℤ)
    (p : String × String)
    (h : groupAvg (lastHourRows store now) p ≤ 0) :
    p ∉ (check_poor_signal store now).map alertKey := by
  intro hmem
  rw [List.mem_map] at hmem
  obtain ⟨a, ha, hk⟩ := hmem
  rw [mem_check_poor_signal] at ha
  obtain ⟨q, hq, h1, h2, rfl⟩ := ha
  rw [alertKey_poorAlert] at hk
  subst hk
  exact absurd h1 (not_lt.mpr h)

/-- Claim C10 witness: a group of one sample with stored signal -5, so
its raw average is -5, discharging the nonpositive-average
hypothesis. -/
theorem check_poor_signal_skips_nonpositive_witness :
    groupAvg (lastHourRows [⟨99000, "B", "M", -5⟩] 100000) ("B", "M") ≤ 0
    ∧ ("B", "M") ∉
        (check_poor_signal [⟨99000, "B", "M", -5⟩] 100000).map alertKey :=
  ⟨by norm_num [groupAvg, groupRows, lastHourRows, measKey, listMean,
      List.filter],
    check_poor_signal_skips_nonpositive _ _ _
      (by norm_num [groupAvg, groupRows, lastHourRows, measKey, listMean,
        List.filter])⟩

/-- Claim C5 counterexample: a pair with a sample 85 minutes old (in
the old window) and a sample at exactly t = now; the claimed recent
window [now - 30m, now) contains no sample, so the claim flags the
pair, but the code's recent set has no upper bound on timestamp, counts
the t = now sample as recently seen, and emits nothing. -/
theorem disappearance_same_second_sample_cex :
    (∃ m ∈ ([⟨95000, "A", "N", 50⟩, ⟨100000, "A", "N", 50⟩] : Store),
        measKey m = ("A", "N") ∧ 100000 - 7200 ≤ m.timestamp ∧
          m.timestamp < 100000 - 1800)
    ∧ ¬ (∃ m ∈ ([⟨95000, "A", "N", 50⟩, ⟨100000, "A", "N", 50⟩] : Store),
        measKey m = ("A", "N") ∧ 100000 - 1800 ≤ m.timestamp ∧
          m.timestamp < 100000)
    ∧ check_network_disappearance
        ([⟨95000, "A", "N", 50⟩, ⟨100000, "A", "N", 50⟩] : Store) 100000
      = [] := by
  refine ⟨by decide, by decide, by decide⟩

/-- Claim C5 amended: the disappearance check emits exactly one alert
for a pair precisely when that pair has a sample in the old window
[now - 2h, now - 30m) and no sample with timestamp at or after
now - 30m (the recent set is unbounded above, so a sample at or after
now also counts as recently seen), and every emitted alert is a warning
carrying missing minutes 30; in particular a pair without an old-window
sample is never flagged. -/
theorem check_network_disappearance_amended (store : Store) (now : ℤ)
    (p : String × String) :
    (((check_network_disappearance store now).map alertKey).count p =
      if (∃ m ∈ store, measKey m = p ∧ now - 7200 ≤ m.timestamp ∧
            m.timestamp < now - 1800)
          ∧ ¬ ∃ m ∈ store, measKey m = p ∧ now - 1800 ≤ m.timestamp
      then 1 else 0)
    ∧ ∀ a ∈ check_network_disappearance store now,
        a.severity = "warning" ∧ missingMinutes a = some 30 := by
  have hmapkey : (check_network_disappearance store now).map alertKey
      = (oldWindowPairs store now).filter
          fun q => decide (q ∉ recentSeenPairs store now) := by
    unfold check_network_disappearance
    rw [List.map_map]
    have hco : alertKey ∘ (fun q => disappearAlert q now) = id := by
      funext q
      cases q
      rfl
    rw [hco, List.map_id]
  constructor
  · rw [hmapkey]
    have hnd : ((oldWindowPairs store now).filter
        fun q => decide (q ∉ recentSeenPairs store now)).Nodup :=
      List.Nodup.filter _ (List.nodup_dedup _)
    by_cases hcond : (∃ m ∈ store, measKey m = p ∧ now - 7200 ≤ m.timestamp ∧
          m.timestamp < now - 1800)
        ∧ ¬ ∃ m ∈ store, measKey m = p ∧ now - 1800 ≤ m.timestamp
    · rw [if_pos hcond]
      apply count_eq_one_of_nodup_mem hnd
      rw [List.mem_filter]
      refine ⟨(mem_oldWindowPairs store now p).mpr hcond.1, ?_⟩
      simp only [decide_eq_true_eq]
      intro hin
      exact hcond.2 ((mem_recentSeenPairs store now p).mp hin)
    · rw [if_neg hcond]
      rw [List.count_eq_zero]
      intro hmem
      rw [List.mem_filter] at hmem
      apply hcond
      have hnotin : p ∉ recentSeenPairs store now := by
        simpa using hmem.2
      refine ⟨(mem_oldWindowPairs store now p).mp hmem.1, ?_⟩
      intro hb
      exact hnotin ((mem_recentSeenPairs store now p).mpr hb)
  · intro a ha
    unfold check_network_disappearance at ha
    rw [List.mem_map] at ha
    obtain ⟨q, hq, rfl⟩ := ha
    exact ⟨rfl, rfl⟩

/-- Claim C5 amended witness: one pair seen 90 minutes before now and
absent since, instantiating the amended statement at a concrete
store. -/
theorem check_network_disappearance_amended_witness :
    (((check_network_disappearance [⟨95000, "A", "N", 50⟩] 100000).map
          alertKey).count ("A", "N") =
      if (∃ m ∈ ([⟨95000, "A", "N", 50⟩] : Store), measKey m = ("A", "N") ∧
            100000 - 7200 ≤ m.timestamp ∧ m.timestamp < 100000 - 1800)
          ∧ ¬ ∃ m ∈ ([⟨95000, "A", "N", 50⟩] : Store),
            measKey m = ("A", "N") ∧ 100000 - 1800 ≤ m.timestamp
      then 1 else 0)
    ∧ ∀ a ∈ check_network_disappearance [⟨95000, "A", "N", 50⟩] 100000,
        a.severity = "warning" ∧ missingMinutes a = some 30 :=
  check_network_disappearance_amended _ 100000 ("A", "N")

/-- Claim C9 witness: a two-alert ledger, one older and one newer than
seven days, on which the prune-then-query behaviour is instantiated. -/
theorem prune_then_recent_witness :
    get_recent_alerts (clear_old_alerts
        [⟨0, "poor_signal", "m1", "info", AlertData.poorSig "A" "N" (-90)⟩,
         ⟨999000, "network_disappeared", "m2", "warning",
           AlertData.disappeared "A" "N" 30⟩] 1000000 7) 1000000 8760
      = List.filter (fun a => decide (1000000 - 7 * 86400 ≤ a.timestamp))
        [⟨0, "poor_signal", "m1", "info", AlertData.poorSig "A" "N" (-90)⟩,
         ⟨999000, "network_disappeared", "m2", "warning",
           AlertData.disappeared "A" "N" 30⟩]
    ∧ ∀ a ∈ get_recent_alerts (clear_old_alerts
        [⟨0, "poor_signal", "m1", "info", AlertData.poorSig "A" "N" (-90)⟩,
         ⟨999000, "network_disappeared", "m2", "warning",
           AlertData.disappeared "A" "N" 30⟩] 1000000 7) 1000000 8760,
        ¬ a.timestamp < 1000000 - 7 * 86400 :=
  prune_then_recent _ 1000000
